import Mathlib

/-!
Verification of the sway-autostart-i3ipc startup manager (`startup.py`).

The development shallowly embeds the program's decision logic:
  * the `WorkTime` classifier (`is_workday` / `is_weekend`),
  * the config-consumption step that builds the three command lists
    (`wants`, `pre_list`, `weekend_list`) inside one `try`/`except KeyError`
    boundary,
  * `log_message` with its valid-severity check,
  * the three execution stages (pre / weekend / general) and the final
    `main_quit`, rendered as a trace of observable events.

External effects are modelled as explicit inputs: the existence of the
`~/.vacation` file is a boolean `vacation_override`; subprocess exit codes
and captured outputs are oracles `String → Int` / `String → String`; the
compositor reply error flag (`reply[0].error`) is an oracle `String → Bool`.
-/

namespace SwayAutostart

/-- Journal severity constants from `systemd.journal` (standard syslog
numeric levels), as used by `log_message`. -/
def LOG_EMERG : Nat := 0

def LOG_ALERT : Nat := 1

def LOG_CRIT : Nat := 2

def LOG_ERR : Nat := 3

def LOG_WARNING : Nat := 4

def LOG_NOTICE : Nat := 5

def LOG_INFO : Nat := 6

def LOG_DEBUG : Nat := 7

/-- The `valid_levels` set of `log_message` (startup.py lines 40-49),
as a list of the eight journal constants. -/
def valid_levels : List Nat :=
  [LOG_EMERG, LOG_ALERT, LOG_CRIT, LOG_ERR, LOG_WARNING, LOG_NOTICE,
   LOG_INFO, LOG_DEBUG]

/-- Observable effects of a run: console prints, journal sends, local
shell executions (`subprocess.run` / `check_output`), compositor
directives (`_wm.command`), the pacing sleep, and the final
`_wm.main_quit()`. -/
inductive Event where
  | print (msg : String)
  | journalSend (msg : String) (priority : Nat)
  | runShell (cmd : String)
  | wmCommand (directive : String)
  | sleepMs (ms : Nat)
  | mainQuit
deriving DecidableEq

/-- `log_message` (startup.py lines 33-53): rejects a level outside
`valid_levels` by raising `ValueError` (modelled as `Except.error` carrying
the message text), otherwise prints the message and sends it to the
journal, in that order. -/
def log_message (message : String) (level : Nat) :
    Except String (List Event) :=
  if level ∈ valid_levels then
    Except.ok [Event.print message, Event.journalSend message level]
  else
    Except.error ("Invalid log level: " ++ toString level)

/-- The two events produced by a successful `log_message` call; the main
flow only ever passes the constants `journal.LOG_INFO` / `journal.LOG_ERR`,
which are in `valid_levels`, so those calls never raise. -/
def logEvents (message : String) (level : Nat) : List Event :=
  [Event.print message, Event.journalSend message level]

/-- The timestamp data `WorkTime` (a `datetime` subclass) reads:
`isoweekday()` (1 = Monday .. 7 = Sunday for a real datetime) and
`hour` (0-23 for a real datetime). -/
structure WorkTime where
  isoweekday : Nat
  hour : Nat
deriving DecidableEq

/-- `WorkTime.is_weekend` (startup.py lines 118-122): true iff
`isoweekday() not in range(1, 6)`; Python `d in range(1, 6)` is
`1 ≤ d < 6`. -/
def WorkTime.is_weekend (self : WorkTime) : Bool :=
  if 1 ≤ self.isoweekday ∧ self.isoweekday < 6 then false else true

/-- `WorkTime.is_workday` (startup.py lines 105-116): if the vacation
marker file `~/.vacation` exists (modelled as the boolean
`vacation_override`) the answer is `False`; otherwise true iff not a
weekend and `self.hour in range(8, 16)`, i.e. `8 ≤ hour < 16`. -/
def WorkTime.is_workday (self : WorkTime) (vacation_override : Bool) : Bool :=
  if vacation_override then false
  else if self.is_weekend = false ∧ 8 ≤ self.hour ∧ self.hour < 16 then true
  else false

/-- The context pair computed once per run in the main block
(startup.py lines 130-133): `workday = now.is_workday()`,
`weekend = now.is_weekend()`. -/
structure Context where
  is_workday : Bool
  is_weekend : Bool
deriving DecidableEq

/-- The spec's `classify(now, vacation_override)` contract, packaging the
two `WorkTime` methods exactly as the main block calls them. -/
def classify (now : WorkTime) (vacation_override : Bool) : Context :=
  ⟨now.is_workday vacation_override, now.is_weekend⟩

/-- The `autostarts` mapping of the YAML config: each key may be absent
(`none`) or present with an ordered list of command strings. -/
structure Autostarts where
  pre : Option (List String)
  common : Option (List String)
  weekend : Option (List String)
  work : Option (List String)
deriving DecidableEq

/-- The loaded YAML document: the top-level `autostarts` key may itself be
absent. -/
structure Config where
  autostarts : Option Autostarts
deriving DecidableEq

/-- Result of the config-consumption step: the three accumulated lists,
plus the missing-key name logged by the `except KeyError` handler
(`key_err.args[0]`), if any. -/
structure Selection where
  wants : List String
  pre_list : List String
  weekend_list : List String
  keyError : Option String
deriving DecidableEq

/-- The config-consumption step (startup.py lines 145-160), embedded with
its exact sequential access order inside the single `try` boundary:
`config_file["autostarts"]`, then `loaded_starts["common"]`,
`loaded_starts["pre"]` (extended only when truthy, i.e. non-empty),
then `loaded_starts["work"]` only if `workday`, then
`loaded_starts["weekend"]` only if `weekend`.  The first missing key
aborts the remaining accesses (KeyError jumps to the handler), keeping
whatever was already accumulated. -/
def consumeAutostarts (config_file : Config) (workday weekend : Bool) :
    Selection :=
  match config_file.autostarts with
  | none => ⟨[], [], [], some "autostarts"⟩
  | some loaded_starts =>
    match loaded_starts.common with
    | none => ⟨[], [], [], some "common"⟩
    | some c =>
      match loaded_starts.pre with
      | none => ⟨c, [], [], some "pre"⟩
      | some p =>
        let pl := if p.isEmpty then [] else p
        if workday then
          match loaded_starts.work with
          | none => ⟨c, pl, [], some "work"⟩
          | some w =>
            if weekend then
              match loaded_starts.weekend with
              | none => ⟨c ++ w, pl, [], some "weekend"⟩
              | some wk => ⟨c ++ w, pl, wk, none⟩
            else ⟨c ++ w, pl, [], none⟩
        else
          if weekend then
            match loaded_starts.weekend with
            | none => ⟨c, pl, [], some "weekend"⟩
            | some wk => ⟨c, pl, wk, none⟩
          else ⟨c, pl, [], none⟩

/-- One iteration of the `pre` loop (startup.py lines 167-174): an info
log, then `subprocess.run(pre_item, shell=True, check=False)`.  With
`check=False`, `subprocess.run` returns a `CompletedProcess` whatever the
exit status and never raises `CalledProcessError`, so the
`except subprocess.CalledProcessError` handler (lines 173-174) is
unreachable and the emitted events do not depend on the exit code. -/
def preTask (exitc : String → Int) (pre_item : String) : List Event :=
  let _rc := exitc pre_item
  logEvents ("running (blocking) \"pre\" task: \"" ++ pre_item ++ "\"")
    LOG_INFO ++ [Event.runShell pre_item]

/-- The `pre` stage loop over `pre_list` (startup.py lines 167-174). -/
def preStage (exitc : String → Int) : List String → List Event
  | [] => []
  | pre_item :: rest => preTask exitc pre_item ++ preStage exitc rest

/-- One iteration of the `weekend` loop (startup.py lines 177-188): an
info log, `subprocess.check_output(weekend_item, shell=True)` which raises
`CalledProcessError` on a non-zero exit; the handler logs the captured
output (`weekend_except.output`, modelled by the oracle `outc`) at error
severity and the loop continues. -/
def weekendTask (exitc : String → Int) (outc : String → String)
    (weekend_item : String) : List Event :=
  logEvents ("running (blocking) \"weekend\" task: \"" ++ weekend_item ++ "\"")
    LOG_INFO ++ [Event.runShell weekend_item] ++
  (if exitc weekend_item ≠ 0 then
    logEvents ("Exception during \"" ++ weekend_item ++ "\": " ++
      outc weekend_item) LOG_ERR
   else [])

/-- The `weekend` stage loop over `weekend_list` (startup.py lines
176-188); the surrounding `if weekend:` guard lives in `runProgram`. -/
def weekendStage (exitc : String → Int) (outc : String → String) :
    List String → List Event
  | [] => []
  | weekend_item :: rest =>
      weekendTask exitc outc weekend_item ++ weekendStage exitc outc rest

/-- The error message logged when the compositor reply flags an error
(startup.py lines 199-201). -/
def wmFailMsg (command : String) : String :=
  "autostart \"" ++ command ++ "\" failed, couldn\x27t reach WM"

/-- One iteration of the general-dispatch loop (startup.py lines
191-201): build `command = "exec " + wanteditem`, log it, send it through
the compositor channel, `sleep(0.1)` (100ms), then inspect
`reply[0].error` (the oracle `replyError`) and log at error severity when
it is set; the loop continues either way. -/
def generalTask (replyError : String → Bool) (wanteditem : String) :
    List Event :=
  let command := "exec " ++ wanteditem
  logEvents ("sending to WM: \"" ++ command ++ "\"") LOG_INFO ++
  [Event.wmCommand command, Event.sleepMs 100] ++
  (if replyError command then logEvents (wmFailMsg command) LOG_ERR else [])

/-- The general-dispatch loop over `wants` (startup.py lines 191-201). -/
def generalStage (replyError : String → Bool) : List String → List Event
  | [] => []
  | wanteditem :: rest =>
      generalTask replyError wanteditem ++ generalStage replyError rest

/-- The whole run (startup.py lines 125-203) as an event trace:
if the config file exists it is loaded (the "found/loading" print and the
consumption step with its possible KeyError log), otherwise all lists stay
empty; then the pre stage, the weekend stage (guarded by `weekend`), the
general stage, and finally `_wm.main_quit()`. -/
def runProgram (config_path : String) (config_exists : Bool)
    (config_file : Config) (workday weekend : Bool)
    (exitc : String → Int) (outc : String → String)
    (replyError : String → Bool) : List Event :=
  let sel :=
    if config_exists then consumeAutostarts config_file workday weekend
    else ⟨[], [], [], none⟩
  (if config_exists then
    [Event.print ("found/loading config: \x27" ++ config_path ++ "\x27")]
   else []) ++
  (match sel.keyError with
   | some k =>
       logEvents ("Key not found in " ++ config_path ++ ": " ++ k) LOG_ERR
   | none => []) ++
  preStage exitc sel.pre_list ++
  (if weekend then weekendStage exitc outc sel.weekend_list else []) ++
  generalStage replyError sel.wants ++
  [Event.mainQuit]

/-- Extracts the directive of a compositor-send event, for stating
dispatch-order properties. -/
def getWmDirective : Event → Option String
  | Event.wmCommand d => some d
  | _ => none

/-- True iff every compositor-send event in the trace is immediately
followed by the 100ms pacing sleep. -/
def sleepAfterSends : List Event → Bool
  | [] => true
  | Event.wmCommand _ :: rest =>
      match rest with
      | Event.sleepMs 100 :: _ => sleepAfterSends rest
      | _ => false
  | _ :: rest => sleepAfterSends rest

/-- True iff the event is a journal send at error severity. -/
def isErrLog : Event → Bool
  | Event.journalSend _ p => p == LOG_ERR
  | _ => false

/-- Extracts the command of a local shell execution event, for stating
execution-order properties of the blocking stages. -/
def getShellCmd : Event → Option String
  | Event.runShell c => some c
  | _ => none

/-- Claim C1: `classify` marks a timestamp as weekend exactly when its ISO
day-of-week is Saturday (6) or Sunday (7), and as a workday exactly when
the vacation override is off, the day is not a weekend day, and the hour
lies in [8, 16); in particular hour 16 is never a workday hour. -/
theorem classify_weekend_workday (t : WorkTime) (vac : Bool)
    (h1 : 1 ≤ t.isoweekday) (h7 : t.isoweekday ≤ 7) :
    ((classify t vac).is_weekend = true ↔
      (t.isoweekday = 6 ∨ t.isoweekday = 7)) ∧
    ((classify t vac).is_workday = true ↔
      (vac = false ∧ (classify t vac).is_weekend = false ∧
        8 ≤ t.hour ∧ t.hour < 16)) ∧
    (t.hour = 16 → (classify t vac).is_workday = false) := by
  refine ⟨?_, ?_, ?_⟩ <;>
    simp only [classify, WorkTime.is_workday, WorkTime.is_weekend] <;>
    split_ifs <;> simp_all <;> omega

/-- Witness for C1 at the concrete timestamp Saturday 16:00 with the
override off. -/
theorem classify_weekend_workday_witness :
    ((classify ⟨6, 16⟩ false).is_weekend = true ↔
      ((WorkTime.mk 6 16).isoweekday = 6 ∨ (WorkTime.mk 6 16).isoweekday = 7)) ∧
    ((classify ⟨6, 16⟩ false).is_workday = true ↔
      (false = false ∧ (classify ⟨6, 16⟩ false).is_weekend = false ∧
        8 ≤ (WorkTime.mk 6 16).hour ∧ (WorkTime.mk 6 16).hour < 16)) ∧
    ((WorkTime.mk 6 16).hour = 16 →
      (classify ⟨6, 16⟩ false).is_workday = false) :=
  classify_weekend_workday ⟨6, 16⟩ false (by decide) (by decide)

/-- Claim C7: the vacation override unconditionally suppresses the workday
flag, and the workday and weekend flags are never simultaneously true. -/
theorem vacation_suppresses_workday_exclusive :
    ∀ (t : WorkTime) (vac : Bool),
      (classify t true).is_workday = false ∧
      ((classify t vac).is_workday && (classify t vac).is_weekend) = false := by
  intro t vac
  constructor
  · simp [classify, WorkTime.is_workday]
  · simp only [classify, WorkTime.is_workday, WorkTime.is_weekend]
    split_ifs <;> simp_all

/-- Claim C8: on the config `{pre: [a], common: [b], weekend: [c],
work: [d]}`, a workday (non-weekend) context selects `pre=[a]`,
`weekend=[]`, `general=[b, d]`, and a Saturday (weekend, non-workday)
context selects `pre=[a]`, `weekend=[c]`, `general=[b]`. -/
theorem sample_config_selection :
    consumeAutostarts
        ⟨some ⟨some ["a"], some ["b"], some ["c"], some ["d"]⟩⟩ true false =
      ⟨["b", "d"], ["a"], [], none⟩ ∧
    consumeAutostarts
        ⟨some ⟨some ["a"], some ["b"], some ["c"], some ["d"]⟩⟩ false true =
      ⟨["b"], ["a"], ["c"], none⟩ :=
  ⟨rfl, rfl⟩

/-- Claim C10: the single exception boundary around config consumption
makes a missing key abort all later list-building: with `common` missing,
every list stays empty even though `pre`, `weekend` and `work` exist; with
`pre` missing, the general list keeps the common commands but `work` is
never appended and the weekend list stays empty even on a weekend. -/
theorem single_boundary_masks_later_fields :
    ∀ (p wk w c wk2 w2 : List String) (workday weekend : Bool),
      consumeAutostarts ⟨some ⟨some p, none, some wk, some w⟩⟩
          workday weekend = ⟨[], [], [], some "common"⟩ ∧
      consumeAutostarts ⟨some ⟨none, some c, some wk2, some w2⟩⟩
          workday weekend = ⟨c, [], [], some "pre"⟩ := by
  intro p wk w c wk2 w2 workday weekend
  exact ⟨rfl, rfl⟩

/-- Claim C4: with the `work` key absent in a workday (non-weekend)
context, consumption stops at the `work` access with the key name
recorded, keeping the already-collected pre list and the common-only
general list, and the run logs the missing key at error severity. -/
theorem missing_work_partial_selection :
    ∀ (p c wk : List String) (path : String) (exitc : String → Int)
      (outc : String → String) (re : String → Bool),
      consumeAutostarts ⟨some ⟨some p, some c, some wk, none⟩⟩ true false =
        ⟨c, p, [], some "work"⟩ ∧
      Event.journalSend ("Key not found in " ++ path ++ ": work") LOG_ERR ∈
        runProgram path true ⟨some ⟨some p, some c, some wk, none⟩⟩
          true false exitc outc re := by
  intro p c wk path exitc outc re
  have hsel : consumeAutostarts ⟨some ⟨some p, some c, some wk, none⟩⟩
      true false = ⟨c, p, [], some "work"⟩ := by
    cases p <;> rfl
  refine ⟨hsel, ?_⟩
  simp [runProgram, hsel, logEvents, List.mem_append]
  left
  rw [String.append_assoc ("Key not found in " ++ path) ": " "work"]
  rfl

/-- Claim C6: when no configuration file exists at the resolved path, the
run's observable trace is exactly the compositor teardown: no command is
run or dispatched and nothing is logged. -/
theorem no_config_only_teardown :
    ∀ (path : String) (config_file : Config) (workday weekend : Bool)
      (exitc : String → Int) (outc : String → String) (re : String → Bool),
      runProgram path false config_file workday weekend exitc outc re =
        [Event.mainQuit] := by
  intro path config_file workday weekend exitc outc re
  cases weekend <;> rfl

/-- Claim C9: `log_message` raises exactly when the severity is outside
the fixed eight-element set of journal levels (which is `{0, ..., 7}`); on
a valid level it produces the print followed by the journal send, and on
an invalid level it produces the error value alone, so nothing is printed
or sent. -/
theorem log_message_validity :
    ∀ (msg : String) (level : Nat),
      ((∃ e, log_message msg level = Except.error e) ↔ 8 ≤ level) ∧
      (level < 8 ↔ log_message msg level =
        Except.ok [Event.print msg, Event.journalSend msg level]) ∧
      valid_levels.length = 8 := by
  intro msg level
  have hmem : level ∈ valid_levels ↔ level < 8 := by
    simp [valid_levels, LOG_EMERG, LOG_ALERT, LOG_CRIT, LOG_ERR,
      LOG_WARNING, LOG_NOTICE, LOG_INFO, LOG_DEBUG]
    omega
  by_cases h : level ∈ valid_levels
  · rw [log_message, if_pos h]
    refine ⟨?_, ?_, rfl⟩
    · constructor
      · rintro ⟨e, he⟩
        cases he
      · intro h8
        exact absurd (hmem.mp h) (by omega)
    · constructor
      · intro _
        rfl
      · intro _
        exact hmem.mp h
  · have h8 : ¬ level < 8 := fun hlt => h (hmem.mpr hlt)
    rw [log_message, if_neg h]
    refine ⟨?_, ?_, rfl⟩
    · constructor
      · intro _
        omega
      · intro _
        exact ⟨_, rfl⟩
    · constructor
      · intro hlt
        exact absurd hlt h8
      · intro he
        cases he

/-- Claim C2 (divergence witness): because the pre loop calls
`subprocess.run` with `check=False`, its trace is independent of the
commands' exit codes, contains no error-severity log whatsoever, and still
runs every command in order — so a non-zero exit of a pre command is never
reported, contradicting the claimed log-and-continue error handling (the
`except CalledProcessError` handler is dead code). -/
theorem preStage_never_logs_error :
    ∀ (e1 e2 : String → Int) (l : List String),
      preStage e1 l = preStage e2 l ∧
      (preStage e1 l).filter isErrLog = [] ∧
      (preStage e1 l).filterMap getShellCmd = l := by
  intro e1 e2 l
  induction l with
  | nil => exact ⟨rfl, rfl, rfl⟩
  | cons x xs ih =>
    refine ⟨?_, ?_, ?_⟩
    · simp [preStage, preTask, ih.1]
    · simp [preStage, preTask, logEvents, isErrLog, LOG_INFO, LOG_ERR,
        List.filter_append, ih.2.1]
    · simp [preStage, preTask, logEvents, getShellCmd,
        List.filterMap_append, ih.2.2]

/-- Claim C3 (counterexample): with the `pre` key absent (config
`{common: [b], weekend: [c], work: [d]}`) on a weekend, consumption stops
at the `pre` access and reports the missing key — an error IS reported,
and the weekend list stays empty; moreover the run logs the failure at
error severity.  This refutes the claim that absence of `pre` is not an
error. -/
theorem pre_absent_reports_error :
    (consumeAutostarts ⟨some ⟨none, some ["b"], some ["c"], some ["d"]⟩⟩
      false true).keyError = some "pre" ∧
    (consumeAutostarts ⟨some ⟨none, some ["b"], some ["c"], some ["d"]⟩⟩
      false true).weekend_list = [] ∧
    Event.journalSend ("Key not found in cfg.yml: pre") LOG_ERR ∈
      runProgram "cfg.yml" true
        ⟨some ⟨none, some ["b"], some ["c"], some ["d"]⟩⟩ false true
        (fun _ => 0) (fun _ => "") (fun _ => false) := by
  refine ⟨rfl, rfl, ?_⟩
  decide

/-- Claim C3 (amended): when `common` is present, the selected pre list
equals `config.autostarts.pre` verbatim whenever the `pre` field is
present; when `pre` is absent the pre list is empty but a missing-key
error naming `pre` is recorded (and the later `work`/`weekend` fields are
not consulted). -/
theorem pre_selection_amended :
    ∀ (a : Autostarts) (c : List String) (workday weekend : Bool),
      a.common = some c →
      (∀ p, a.pre = some p →
        (consumeAutostarts ⟨some a⟩ workday weekend).pre_list = p) ∧
      (a.pre = none →
        (consumeAutostarts ⟨some a⟩ workday weekend).pre_list = [] ∧
        (consumeAutostarts ⟨some a⟩ workday weekend).keyError = some "pre") := by
  intro a c workday weekend hc
  obtain ⟨ap, ac, awk, aw⟩ := a
  cases ac with
  | none => cases hc
  | some c2 =>
    constructor
    · intro p hp
      cases ap with
      | none => cases hp
      | some p2 =>
        have hpp : p2 = p := by
          injection hp
        subst hpp
        cases workday <;> cases weekend <;> cases aw <;> cases awk <;>
          cases p2 <;> simp [consumeAutostarts]
    · intro hp
      cases ap with
      | none => exact ⟨rfl, rfl⟩
      | some p2 => cases hp

/-- Witness for the amended C3 at the concrete config
`{pre: [a], common: [b], weekend: [c], work: [d]}` in a workday
context. -/
theorem pre_selection_amended_witness :
    (∀ p,
      (Autostarts.mk (some ["a"]) (some ["b"]) (some ["c"]) (some ["d"])).pre
        = some p →
      (consumeAutostarts
        ⟨some ⟨some ["a"], some ["b"], some ["c"], some ["d"]⟩⟩
        true false).pre_list = p) ∧
    ((Autostarts.mk (some ["a"]) (some ["b"]) (some ["c"]) (some ["d"])).pre
        = none →
      (consumeAutostarts
        ⟨some ⟨some ["a"], some ["b"], some ["c"], some ["d"]⟩⟩
        true false).pre_list = [] ∧
      (consumeAutostarts
        ⟨some ⟨some ["a"], some ["b"], some ["c"], some ["d"]⟩⟩
        true false).keyError = some "pre") :=
  pre_selection_amended ⟨some ["a"], some ["b"], some ["c"], some ["d"]⟩
    ["b"] true false rfl

/-- Prepending one general-task iteration to a trace preserves the
send-then-sleep pacing property: the iteration's own send is immediately
followed by the 100ms sleep, and its other events are prints and journal
sends. -/
theorem sleepAfterSends_generalTask (re : String → Bool) (x : String)
    (rest : List Event) :
    sleepAfterSends (generalTask re x ++ rest) = sleepAfterSends rest := by
  by_cases h : re ("exec " ++ x) <;>
    simp [generalTask, logEvents, h, sleepAfterSends]

/-- Claim C5: the general stage sends exactly the directives
`"exec " ++ c` for the selected commands `c`, in list order, independently
of any reported errors; every send is immediately followed by the fixed
100ms pacing sleep; and whenever the channel reply flags an error for a
dispatched command, the corresponding error-severity log event appears in
the trace (while the dispatch sequence itself is unaffected). -/
theorem general_dispatch_spec :
    ∀ (re : String → Bool) (l : List String),
      (generalStage re l).filterMap getWmDirective =
        l.map (fun c => "exec " ++ c) ∧
      sleepAfterSends (generalStage re l) = true ∧
      (∀ c, c ∈ l → re ("exec " ++ c) = true →
        Event.journalSend (wmFailMsg ("exec " ++ c)) LOG_ERR ∈
          generalStage re l) := by
  intro re l
  induction l with
  | nil =>
    refine ⟨rfl, rfl, ?_⟩
    intro c hc
    simp at hc
  | cons x xs ih =>
    refine ⟨?_, ?_, ?_⟩
    · by_cases h : re ("exec " ++ x) <;>
        simp [generalStage, generalTask, logEvents, getWmDirective,
          List.filterMap_append, h, ih.1]
    · rw [show generalStage re (x :: xs) =
          generalTask re x ++ generalStage re xs from rfl,
        sleepAfterSends_generalTask]
      exact ih.2.1
    · intro c hc hre
      rcases List.mem_cons.mp hc with hcx | hmem
      · subst hcx
        simp [generalStage, generalTask, logEvents, hre, List.mem_append]
      · have hmemev := ih.2.2 c hmem hre
        rw [show generalStage re (x :: xs) =
            generalTask re x ++ generalStage re xs from rfl]
        exact List.mem_append_right _ hmemev

/-- Witness for C5 at the concrete list `[x]` with a channel that reports
an error on every directive: the error log for `"exec x"` appears in the
dispatched trace. -/
theorem general_dispatch_spec_witness :
    Event.journalSend (wmFailMsg ("exec " ++ "x")) LOG_ERR ∈
      generalStage (fun _ => true) ["x"] :=
  (general_dispatch_spec (fun _ => true) ["x"]).2.2 "x" (by simp) rfl

end SwayAutostart
